import Mathlib

/-!
Shallow embedding of the attendance client in src/src/App.jsx.

The file models the two React views as explicit state machines:

* `StudentView` local state (`status`, `distance`, `allowed`, `file`) together
  with the state transitions performed by `pingLocation` (lines 140-157) and
  `upload` (lines 159-168), plus the render guards of lines 184-191 that make
  the selfie input and the Upload button reachable only when `allowed` holds.

* `TeacherView` local state (`students`) together with the two socket event
  handlers registered in the effect of lines 44-65 and the `openSession`
  request body of lines 67-83.  The asynchronous ordering between the effect
  (which subscribes) and the teacher-view snapshot fetch is modelled as a
  trace of atomic actions with an admissibility predicate derived from the
  program order of the code.
-/

/-- Status values assigned to `StudentView`'s `status` state in App.jsx:
`idle` (initial), `checking`, `allowed`, `too-far`, `loc-error`, `uploaded`. -/
inductive SStatus
  | idle
  | checking
  | allowed
  | tooFar
  | locError
  | uploaded
deriving DecidableEq, Repr

/-- Local state of `StudentView` (App.jsx lines 127-131): `status`,
`distance` (null until first successful ping), `allowed` (initially false)
and the selected selfie `file` (null until chosen). -/
structure StudentState where
  status : SStatus
  distance : Option Rat
  allowed : Bool
  file : Option Nat
deriving DecidableEq, Repr

/-- Body of a successful `/location` response as read by `pingLocation`:
`data.allowed` (coerced to a boolean by `!!`) and `data.distanceMeters`. -/
structure PingResponse where
  allowed : Bool
  distanceMeters : Rat
deriving DecidableEq, Repr

/-- Outcome of one `pingLocation` call: either the fetch resolves with a
parsed response, or the geolocation read or network request throws. -/
inductive PingOutcome
  | success (resp : PingResponse)
  | failure
deriving DecidableEq, Repr

/-- First statement of `pingLocation` (line 141): `setStatus('checking')`. -/
def pingStart (st : StudentState) : StudentState :=
  { st with status := SStatus.checking }

/-- Success path of `pingLocation` (lines 151-153):
`setAllowed(!!data.allowed); setDistance(data.distanceMeters);
setStatus(data.allowed ? 'allowed' : 'too-far')`. -/
def pingSuccess (st : StudentState) (resp : PingResponse) : StudentState :=
  { st with
      allowed := resp.allowed
      distance := some resp.distanceMeters
      status := if resp.allowed then SStatus.allowed else SStatus.tooFar }

/-- Catch branch of `pingLocation` (lines 154-156): only
`setStatus('loc-error')` runs; `allowed` and `distance` are untouched. -/
def pingError (st : StudentState) : StudentState :=
  { st with status := SStatus.locError }

/-- Net effect of one `pingLocation` call (lines 140-157): status is first
set to `checking`, then the outcome branch runs. -/
def pingLocation (st : StudentState) : PingOutcome → StudentState
  | PingOutcome.success resp => pingSuccess (pingStart st) resp
  | PingOutcome.failure => pingError (pingStart st)

/-- Body of the `/selfie` response as read by `upload`: `data.status`. -/
structure UploadResponse where
  status : String
deriving DecidableEq, Repr

/-- State transition of `upload` (lines 159-168): with no selected file the
function returns before any request (`if (!file) return`); otherwise the
only write is `setStatus('uploaded')`, and only when the response status is
the string `uploaded`. -/
def upload (st : StudentState) (resp : UploadResponse) : StudentState :=
  match st.file with
  | none => st
  | some _ =>
      if resp.status == "uploaded" then { st with status := SStatus.uploaded } else st

/-- Selfie input and Upload button (lines 184-191) are rendered inside the
`allowed and ...` block, so a file can be selected only while `allowed`. -/
def canSelectFile (st : StudentState) : Bool :=
  st.allowed

/-- Upload button (line 188) is rendered only while `allowed` and is
disabled while no file is selected. -/
def canClickUpload (st : StudentState) : Bool :=
  st.allowed && st.file.isSome

/-- User-interface events a student session can experience: a ping that
resolves, a ping that throws, choosing a file in the selfie input, and
clicking Upload (carrying the eventual server response). -/
inductive SEvent
  | pingOk (resp : PingResponse)
  | pingFail
  | selectFile (f : Option Nat)
  | clickUpload (resp : UploadResponse)
deriving DecidableEq, Repr

/-- StudentView state paired with a counter of `/selfie` requests fired. -/
structure SysState where
  ui : StudentState
  uploadsFired : Nat
deriving DecidableEq, Repr

/-- One interface event applied to the student system.  `selectFile` and
`clickUpload` are guarded by the render conditions of lines 184-191: an
event on a control that is not rendered (or is disabled) is a no-op. -/
def stepS (s : SysState) : SEvent → SysState
  | SEvent.pingOk resp => { s with ui := pingSuccess (pingStart s.ui) resp }
  | SEvent.pingFail => { s with ui := pingError (pingStart s.ui) }
  | SEvent.selectFile f =>
      if canSelectFile s.ui then { s with ui := { s.ui with file := f } } else s
  | SEvent.clickUpload resp =>
      if canClickUpload s.ui then
        { s with ui := upload s.ui resp, uploadsFired := s.uploadsFired + 1 }
      else s

/-- Runs a list of interface events from a starting system state. -/
def runS (s : SysState) (tr : List SEvent) : SysState :=
  tr.foldl stepS s

/-- Initial StudentView state (lines 128-131): status `idle`, no distance,
`allowed` false, no file; no upload request fired yet. -/
def initS : SysState :=
  { ui := { status := SStatus.idle, distance := none, allowed := false, file := none },
    uploadsFired := 0 }

/-- Decides that no resolved ping in the trace carried `allowed = true`. -/
def noAllowedPing : List SEvent → Bool
  | [] => true
  | e :: rest =>
      (match e with
       | SEvent.pingOk resp => !resp.allowed
       | _ => true) && noAllowedPing rest

/-- Roster entry displayed by `TeacherView` (lines 105-117): `userId`,
`status`, optional `photoUrl`, optional `distance`. -/
structure Student where
  userId : String
  status : String
  photoUrl : Option String
  distance : Option Rat
deriving DecidableEq, Repr

/-- Payload fields the `attendance:uploaded` handler reads (lines 49-60):
`payload.userId`, `payload.photoUrl`, `payload.distance`. -/
structure UploadedPayload where
  userId : String
  photoUrl : Option String
  distance : Option Rat
deriving DecidableEq, Repr

/-- Payload fields the `attendance:overridden` handler reads (lines 61-63):
`payload.userId`, `payload.status`. -/
structure OverriddenPayload where
  userId : String
  status : String
deriving DecidableEq, Repr

/-- Replacement of the first entry matching the payload userId, as done by
`findIndex` followed by `next[idx] = ...` (lines 52-54): the matched entry
keeps every field except `status`, `photoUrl` and `distance`. -/
def updFirst (p : UploadedPayload) : List Student → List Student
  | [] => []
  | x :: xs =>
      if x.userId == p.userId then
        { x with status := "uploaded", photoUrl := p.photoUrl, distance := p.distance } :: xs
      else
        x :: updFirst p xs

/-- The `attendance:uploaded` handler (lines 49-60): update the first entry
whose `userId` matches in place, else `unshift` a new entry at the front. -/
def applyUploaded (l : List Student) (p : UploadedPayload) : List Student :=
  if l.any (fun x => x.userId == p.userId) then
    updFirst p l
  else
    { userId := p.userId, status := "uploaded", photoUrl := p.photoUrl,
      distance := p.distance } :: l

/-- The `attendance:overridden` handler (lines 61-63): map over the current
entries, replacing `status` on the entry whose `userId` matches. -/
def applyOverridden (l : List Student) (p : OverriddenPayload) : List Student :=
  l.map (fun st => if st.userId == p.userId then { st with status := p.status } else st)

/-- Event names for which the teacher socket registers handlers, in
registration order (lines 49 and 61). -/
def teacherHandledEvents : List String :=
  ["attendance:uploaded", "attendance:overridden"]

/-- Parsed roster event, one constructor per handled kind. -/
inductive RosterEvent
  | uploaded (p : UploadedPayload)
  | overridden (p : OverriddenPayload)
deriving DecidableEq, Repr

/-- Socket event name under which each kind of roster event arrives. -/
def eventName : RosterEvent → String
  | RosterEvent.uploaded _ => "attendance:uploaded"
  | RosterEvent.overridden _ => "attendance:overridden"

/-- Dispatch of an incoming roster event to its registered handler. -/
def handleEvent (l : List Student) : RosterEvent → List Student
  | RosterEvent.uploaded p => applyUploaded l p
  | RosterEvent.overridden p => applyOverridden l p

/-- Projection of a roster to its `userId` column. -/
def rosterIds (l : List Student) : List String :=
  l.map Student.userId

/-- Identity fields supplied by `useAuth` after login (lines 24-33). -/
structure AuthUser where
  userId : String
  name : String
deriving DecidableEq, Repr

/-- Coordinates returned by `navigator.geolocation.getCurrentPosition`. -/
structure GeoPos where
  latitude : Rat
  longitude : Rat
deriving DecidableEq, Repr

/-- Body of the `/api/session/start` request (line 75). -/
structure StartSessionRequest where
  teacherId : String
  lat : Rat
  lon : Rat
  expiryMinutes : Nat
  teacherName : String
deriving DecidableEq, Repr

/-- Request body built by `openSession` (lines 67-76):
`{ teacherId: user.userId, lat, lon, expiryMinutes: 15,
teacherName: user.name }` with `lat`, `lon` taken from the captured
position. -/
def openSessionRequest (user : AuthUser) (pos : GeoPos) : StartSessionRequest :=
  { teacherId := user.userId
    lat := pos.latitude
    lon := pos.longitude
    expiryMinutes := 15
    teacherName := user.name }

/-- Atomic actions observable on the teacher side after `setSession`:
the subscription effect running (lines 44-65, registering both handlers
and emitting `join_teacher`), delivery of either event kind to the
registered handlers, and the teacher-view snapshot fetch resolving
(lines 80-82, `setStudents(tvData.students or [])`). -/
inductive TAction
  | subscribe
  | deliverUploaded (p : UploadedPayload)
  | deliverOverridden (p : OverriddenPayload)
  | applySnapshot (snap : List Student)
deriving DecidableEq, Repr

/-- Teacher-side state: whether the subscription effect has run, and the
`students` list. -/
structure TState where
  subscribed : Bool
  students : List Student
deriving DecidableEq, Repr

/-- Effect of one teacher-side action.  Deliveries reach the handlers only
once subscribed; the snapshot fetch resolving runs
`setStudents(tvData.students or [])`, a wholesale replacement that ignores
the previous list. -/
def stepT (s : TState) : TAction → TState
  | TAction.subscribe => { s with subscribed := true }
  | TAction.deliverUploaded p =>
      if s.subscribed then { s with students := applyUploaded s.students p } else s
  | TAction.deliverOverridden p =>
      if s.subscribed then { s with students := applyOverridden s.students p } else s
  | TAction.applySnapshot snap => { s with students := snap }

/-- Runs a list of teacher-side actions from a starting state. -/
def runT (s : TState) (tr : List TAction) : TState :=
  tr.foldl stepT s

/-- Initial teacher-side state once `setSession` has run: not yet
subscribed, `students` still the initial empty list (line 41). -/
def initT : TState :=
  { subscribed := false, students := [] }

def isSub : TAction → Bool
  | TAction.subscribe => true
  | _ => false

def isSnap : TAction → Bool
  | TAction.applySnapshot _ => true
  | _ => false

def isDeliver : TAction → Bool
  | TAction.deliverUploaded _ => true
  | TAction.deliverOverridden _ => true
  | _ => false

/-- Decides that no delivery precedes the subscription in the trace. -/
def noDeliverBeforeSub : List TAction → Bool
  | [] => true
  | a :: rest => if isSub a then true else !isDeliver a && noDeliverBeforeSub rest

/-- Traces admissible for one `openSession` call, per the program order of
lines 44-83: `setSession` (line 78) both schedules the subscription effect
and precedes the snapshot fetch (line 80), so the subscription and the
snapshot application each occur exactly once, in either order relative to
each other, and events are delivered only after the subscription.  Nothing
in the code orders the subscription after the snapshot application. -/
def admissibleOpen (tr : List TAction) : Bool :=
  ((tr.filter isSub).length == 1) && ((tr.filter isSnap).length == 1) &&
    noDeliverBeforeSub tr

/-- Concrete StudentView state after a completed upload: status `uploaded`,
upload window open (`allowed = true`), a measured distance and a file. -/
def c1state : StudentState :=
  { status := SStatus.uploaded, distance := some 3, allowed := true, file := some 1 }

/-- Claim C1 counterexample: from a state whose status is `uploaded`, a
later `pingLocation` whose response has `allowed = false` moves the status
back to `too-far` and sets `allowed` to false, closing the upload window —
the client has no forward-only guard. -/
theorem C1_counterexample :
    c1state.status = SStatus.uploaded ∧
    (pingLocation c1state (PingOutcome.success { allowed := false, distanceMeters := 55 })).status
      = SStatus.tooFar ∧
    (pingLocation c1state (PingOutcome.success { allowed := false, distanceMeters := 55 })).allowed
      = false := by
  decide

/-- Claim C1 (amended): in the client, a `pingLocation` call whose response
has `allowed = false` always sets the status to `too-far` and `allowed` to
false, regardless of the prior status — in particular a prior `uploaded`
status is regressed and the upload window is closed. -/
theorem C1_amended (st : StudentState) (resp : PingResponse)
    (h : resp.allowed = false) :
    (pingLocation st (PingOutcome.success resp)).status = SStatus.tooFar ∧
    (pingLocation st (PingOutcome.success resp)).allowed = false := by
  constructor
  · show (if resp.allowed then SStatus.allowed else SStatus.tooFar) = SStatus.tooFar
    rw [h]
    rfl
  · show resp.allowed = false
    exact h

/-- Witness for C1_amended at the concrete uploaded state. -/
theorem C1_witness :
    ({ allowed := false, distanceMeters := 55 } : PingResponse).allowed = false ∧
    ((pingLocation c1state (PingOutcome.success { allowed := false, distanceMeters := 55 })).status
        = SStatus.tooFar ∧
      (pingLocation c1state (PingOutcome.success { allowed := false, distanceMeters := 55 })).allowed
        = false) :=
  ⟨rfl, C1_amended c1state { allowed := false, distanceMeters := 55 } rfl⟩

/-- Claim C5: for every successful `pingLocation` response the client stores
`distanceMeters` into `distance`, stores the boolean `allowed`, and sets the
status to `allowed` when allowed is true and to the retry-friendly `too-far`
(distinct from the `loc-error` state) when allowed is false. -/
theorem C5_ping_result (st : StudentState) (resp : PingResponse) :
    (pingLocation st (PingOutcome.success resp)).distance = some resp.distanceMeters ∧
    (pingLocation st (PingOutcome.success resp)).allowed = resp.allowed ∧
    (pingLocation st (PingOutcome.success resp)).status
      = (if resp.allowed then SStatus.allowed else SStatus.tooFar) ∧
    SStatus.tooFar ≠ SStatus.locError :=
  ⟨rfl, rfl, rfl, by decide⟩

/-- Claim C6: every `/api/session/start` request built by `openSession`
carries the logged-in teacher identity, the captured anchor coordinates,
and `expiryMinutes = 15`, which is strictly positive. -/
theorem C6_open_session_request (u : AuthUser) (p : GeoPos) :
    (openSessionRequest u p).teacherId = u.userId ∧
    (openSessionRequest u p).teacherName = u.name ∧
    (openSessionRequest u p).lat = p.latitude ∧
    (openSessionRequest u p).lon = p.longitude ∧
    (openSessionRequest u p).expiryMinutes = 15 ∧
    0 < (openSessionRequest u p).expiryMinutes :=
  ⟨rfl, rfl, rfl, rfl, rfl, Nat.succ_pos 14⟩

/-- Claim C7: `upload` is all-or-nothing for the client state — `distance`,
`allowed` and `file` are never changed, and `status` becomes `uploaded`
exactly when a file was selected and the response status is `uploaded`;
in every other case (no file, hence no request; or a non-`uploaded`
response) the status is also unchanged. -/
theorem C7_upload_atomic (st : StudentState) (resp : UploadResponse) :
    (upload st resp).distance = st.distance ∧
    (upload st resp).allowed = st.allowed ∧
    (upload st resp).file = st.file ∧
    (upload st resp).status
      = (if st.file.isSome && (resp.status == "uploaded") then SStatus.uploaded
         else st.status) := by
  unfold upload
  cases hf : st.file with
  | none => simp [hf]
  | some v =>
      by_cases hs : resp.status == "uploaded"
      · simp [hs]
      · simp [Bool.not_eq_true] at hs
        simp [hs, hf]

/-- Claim C10: a failed `pingLocation` (geolocation read or network request
throwing) sets the status to `loc-error` but leaves `allowed` and
`distance` at their prior values, so an upload window opened by a previous
allowed ping stays open. -/
theorem C10_ping_error (st : StudentState) :
    (pingLocation st PingOutcome.failure).status = SStatus.locError ∧
    (pingLocation st PingOutcome.failure).allowed = st.allowed ∧
    (pingLocation st PingOutcome.failure).distance = st.distance ∧
    canSelectFile (pingLocation st PingOutcome.failure) = canSelectFile st :=
  ⟨rfl, rfl, rfl, rfl⟩

/-- Unfolding of `runS` on a cons trace. -/
theorem runS_cons (s : SysState) (e : SEvent) (tr : List SEvent) :
    runS s (e :: tr) = runS (stepS s e) tr :=
  rfl

/-- Invariant for claim C2: from any state with the upload window closed
and no selected file, a trace without an allowed ping keeps the window
closed, the file unselected, and fires no upload request. -/
theorem runS_no_allowed (tr : List SEvent) :
    ∀ s : SysState, noAllowedPing tr = true →
      s.ui.allowed = false → s.ui.file = none →
      (runS s tr).ui.allowed = false ∧ (runS s tr).ui.file = none ∧
      (runS s tr).uploadsFired = s.uploadsFired := by
  induction tr with
  | nil =>
      intro s _ ha hf
      exact ⟨ha, hf, rfl⟩
  | cons e rest ih =>
      intro s hna ha hf
      cases e with
      | pingOk resp =>
          obtain ⟨h1, h2⟩ : (!resp.allowed) = true ∧ noAllowedPing rest = true := by
            simpa [noAllowedPing] using hna
          have hra : resp.allowed = false := by simpa using h1
          rw [runS_cons]
          have hstep : (stepS s (SEvent.pingOk resp)).ui.allowed = false ∧
              (stepS s (SEvent.pingOk resp)).ui.file = none ∧
              (stepS s (SEvent.pingOk resp)).uploadsFired = s.uploadsFired := by
            simp [stepS, pingSuccess, pingStart, hra, hf]
          have hrec := ih (stepS s (SEvent.pingOk resp)) h2 hstep.1 hstep.2.1
          exact ⟨hrec.1, hrec.2.1, by rw [hrec.2.2, hstep.2.2]⟩
      | pingFail =>
          have h2 : noAllowedPing rest = true := by
            simpa [noAllowedPing] using hna
          rw [runS_cons]
          have hstep : (stepS s SEvent.pingFail).ui.allowed = false ∧
              (stepS s SEvent.pingFail).ui.file = none ∧
              (stepS s SEvent.pingFail).uploadsFired = s.uploadsFired := by
            simp [stepS, pingError, pingStart, ha, hf]
          have hrec := ih (stepS s SEvent.pingFail) h2 hstep.1 hstep.2.1
          exact ⟨hrec.1, hrec.2.1, by rw [hrec.2.2, hstep.2.2]⟩
      | selectFile f =>
          have h2 : noAllowedPing rest = true := by
            simpa [noAllowedPing] using hna
          rw [runS_cons]
          have hstep : stepS s (SEvent.selectFile f) = s := by
            simp [stepS, canSelectFile, ha]
          rw [hstep]
          exact ih s h2 ha hf
      | clickUpload resp =>
          have h2 : noAllowedPing rest = true := by
            simpa [noAllowedPing] using hna
          rw [runS_cons]
          have hstep : stepS s (SEvent.clickUpload resp) = s := by
            simp [stepS, canClickUpload, ha]
          rw [hstep]
          exact ih s h2 ha hf

/-- Claim C2: photo upload is gated strictly behind a successful proximity
check — along any trace of interface events in which no ping response
carried `allowed = true`, no `/selfie` request is ever fired, the upload
window stays closed and no file can even be selected. -/
theorem C2_upload_gated (tr : List SEvent) (h : noAllowedPing tr = true) :
    (runS initS tr).uploadsFired = 0 ∧
    (runS initS tr).ui.allowed = false ∧
    (runS initS tr).ui.file = none := by
  have hrec := runS_no_allowed tr initS h rfl rfl
  exact ⟨hrec.2.2, hrec.1, hrec.2.1⟩

/-- Concrete student trace with no allowed ping: attempted file selection
and upload clicks, a failed ping, and an out-of-range ping. -/
def c2trace : List SEvent :=
  [SEvent.selectFile (some 1), SEvent.clickUpload { status := "uploaded" },
   SEvent.pingFail, SEvent.pingOk { allowed := false, distanceMeters := 55 },
   SEvent.clickUpload { status := "uploaded" }]

/-- Witness for C2_upload_gated on the concrete trace. -/
theorem C2_witness :
    noAllowedPing c2trace = true ∧
    ((runS initS c2trace).uploadsFired = 0 ∧
     (runS initS c2trace).ui.allowed = false ∧
     (runS initS c2trace).ui.file = none) :=
  ⟨by decide, C2_upload_gated c2trace (by decide)⟩

/-- Replacing the first matching entry in place keeps the userId column. -/
theorem rosterIds_updFirst (p : UploadedPayload) (l : List Student) :
    rosterIds (updFirst p l) = rosterIds l := by
  induction l with
  | nil => rfl
  | cons x xs ih =>
      by_cases h : x.userId == p.userId
      · simp [updFirst, h, rosterIds]
      · simp only [Bool.not_eq_true] at h
        simp only [updFirst, h, Bool.false_eq_true, if_false, rosterIds, List.map_cons]
        rw [show rosterIds (updFirst p xs) = List.map Student.userId (updFirst p xs) from rfl] at ih
        rw [ih]
        rfl

/-- The overridden handler keeps the userId column unchanged. -/
theorem rosterIds_applyOverridden (l : List Student) (p : OverriddenPayload) :
    rosterIds (applyOverridden l p) = rosterIds l := by
  unfold applyOverridden rosterIds
  rw [List.map_map]
  apply List.map_congr_left
  intro st _
  show (if st.userId == p.userId then _ else st).userId = st.userId
  split <;> rfl

/-- Claim C8: assuming the current roster has pairwise-distinct userIds,
both socket handlers preserve that uniqueness — the uploaded handler
updates a matching entry in place and prepends a new entry only when no
entry matches, and the overridden handler only maps over existing
entries. -/
theorem C8_roster_unique (l : List Student) (pu : UploadedPayload) (po : OverriddenPayload)
    (h : (rosterIds l).Nodup) :
    (rosterIds (applyUploaded l pu)).Nodup ∧ (rosterIds (applyOverridden l po)).Nodup := by
  refine ⟨?_, by rw [rosterIds_applyOverridden]; exact h⟩
  unfold applyUploaded
  by_cases hany : l.any (fun x => x.userId == pu.userId) = true
  · rw [if_pos hany, rosterIds_updFirst]
    exact h
  · rw [if_neg hany]
    rw [show rosterIds
        ({ userId := pu.userId, status := "uploaded", photoUrl := pu.photoUrl,
           distance := pu.distance } :: l) = pu.userId :: rosterIds l from rfl]
    refine List.nodup_cons.mpr ⟨?_, h⟩
    intro hmem
    obtain ⟨x, hx, hxe⟩ := List.mem_map.mp hmem
    exact hany (List.any_eq_true.mpr ⟨x, hx, by simp [hxe]⟩)

/-- Concrete two-entry roster with distinct userIds. -/
def c8l : List Student :=
  [{ userId := "a", status := "pending", photoUrl := none, distance := none },
   { userId := "b", status := "too_far", photoUrl := none, distance := some 55 }]

/-- Witness for C8_roster_unique on the concrete roster. -/
theorem C8_witness :
    (rosterIds c8l).Nodup ∧
    ((rosterIds (applyUploaded c8l
        { userId := "c", photoUrl := some "p", distance := some 2 })).Nodup ∧
     (rosterIds (applyOverridden c8l
        { userId := "a", status := "overridden_absent" })).Nodup) :=
  ⟨by decide,
   C8_roster_unique c8l { userId := "c", photoUrl := some "p", distance := some 2 }
     { userId := "a", status := "overridden_absent" } (by decide)⟩

/-- Claim C9: the overridden handler is a pure per-entry frame — when no
entry matches the payload userId the list is exactly unchanged (nothing is
added), and in general the list keeps its length and every position holds
the original entry, with only the status field replaced on an entry whose
userId matches. -/
theorem C9_override_frame (l : List Student) (p : OverriddenPayload) :
    ((∀ st ∈ l, st.userId ≠ p.userId) → applyOverridden l p = l) ∧
    (applyOverridden l p).length = l.length ∧
    (∀ i : Nat, (applyOverridden l p).get? i
        = (l.get? i).map
            (fun st => if st.userId == p.userId then { st with status := p.status }
                       else st)) := by
  refine ⟨?_, by simp [applyOverridden], ?_⟩
  · intro hnone
    unfold applyOverridden
    have hid : ∀ st ∈ l,
        (if st.userId == p.userId then { st with status := p.status } else st) = st := by
      intro st hst
      have hne : (st.userId == p.userId) = false := by
        simp [hnone st hst]
      rw [hne]
      rfl
    rw [List.map_congr_left hid]
    simp
  · intro i
    simp [applyOverridden, List.get?_map]

/-- Concrete one-entry roster not containing the override target. -/
def c9l : List Student :=
  [{ userId := "a", status := "pending", photoUrl := none, distance := none }]

/-- Witness for C9_override_frame: an override for an absent userId leaves
the roster exactly unchanged. -/
theorem C9_witness :
    (∀ st ∈ c9l, st.userId ≠ "b") ∧
    applyOverridden c9l { userId := "b", status := "overridden_present" } = c9l :=
  ⟨by decide,
   (C9_override_frame c9l { userId := "b", status := "overridden_present" }).1 (by decide)⟩

/-- Concrete admissible teacher trace: the subscription effect runs and an
uploaded event is delivered before the snapshot fetch resolves. -/
def c3trace : List TAction :=
  [TAction.subscribe,
   TAction.deliverUploaded { userId := "s1", photoUrl := some "p", distance := some 3 },
   TAction.applySnapshot []]

/-- Claim C3 counterexample: the trace `c3trace` is admissible for one
`openSession` call, yet the uploaded handler modifies the students list
before the snapshot is applied, and the wholesale snapshot replacement then
erases the delivered event from the list — so the snapshot is not applied
before the handlers can modify the list, and an event the subscription had
already applied is overwritten by the snapshot. -/
theorem C3_counterexample :
    admissibleOpen c3trace = true ∧
    (runT initT (c3trace.take 2)).students ≠ [] ∧
    (runT initT c3trace).students = [] := by
  decide

/-- Claim C3 (amended): the subscription is established as soon as the
session is set, before the roster snapshot fetch completes, so event
handlers can run first; the snapshot application wholesale-replaces the
students list, discarding whatever the handlers did before it, and every
event applied after the snapshot acts on the snapshot-based list (later
events are authoritative from that point on). -/
theorem C3_amended (pre post : List TAction) (snap : List Student)
    (hsub : (runT initT pre).subscribed = true) :
    runT initT (pre ++ TAction.applySnapshot snap :: post)
      = runT { subscribed := true, students := snap } post := by
  have h1 : runT initT (pre ++ TAction.applySnapshot snap :: post)
      = runT (stepT (runT initT pre) (TAction.applySnapshot snap)) post := by
    simp [runT, List.foldl_append, List.foldl_cons]
  rw [h1]
  have h2 : stepT (runT initT pre) (TAction.applySnapshot snap)
      = { subscribed := true, students := snap } := by
    show (⟨(runT initT pre).subscribed, snap⟩ : TState) = ⟨true, snap⟩
    rw [hsub]
  rw [h2]

/-- Witness for C3_amended with the one-action prefix that subscribes. -/
theorem C3_amended_witness :
    (runT initT [TAction.subscribe]).subscribed = true ∧
    runT initT ([TAction.subscribe] ++ TAction.applySnapshot [] :: [])
      = runT { subscribed := true, students := [] } [] :=
  ⟨rfl, C3_amended [TAction.subscribe] [] [] rfl⟩

/-- Claim C4 counterexample: the teacher client registers no handler for an
event named `roster_updated` or `roster_overridden`; the two names it does
handle are `attendance:uploaded` and `attendance:overridden`. -/
theorem C4_counterexample :
    teacherHandledEvents.contains "roster_updated" = false ∧
    teacherHandledEvents.contains "roster_overridden" = false ∧
    teacherHandledEvents.contains "attendance:uploaded" = true ∧
    teacherHandledEvents.contains "attendance:overridden" = true := by
  decide

/-- Claim C4 (amended): the teacher subscription handles exactly two
distinct event kinds, named `attendance:uploaded` and
`attendance:overridden`, and dispatches each to its own handler — the
uploaded handler reading `userId`, `photoUrl` and `distance`, the
overridden handler reading `userId` and `status`. -/
theorem C4_amended :
    teacherHandledEvents = ["attendance:uploaded", "attendance:overridden"] ∧
    teacherHandledEvents.Nodup ∧
    (∀ pu : UploadedPayload,
        eventName (RosterEvent.uploaded pu) = "attendance:uploaded") ∧
    (∀ po : OverriddenPayload,
        eventName (RosterEvent.overridden po) = "attendance:overridden") ∧
    (∀ (l : List Student) (pu : UploadedPayload),
        handleEvent l (RosterEvent.uploaded pu) = applyUploaded l pu) ∧
    (∀ (l : List Student) (po : OverriddenPayload),
        handleEvent l (RosterEvent.overridden po) = applyOverridden l po) :=
  ⟨rfl, by decide, fun _ => rfl, fun _ => rfl, fun _ _ => rfl, fun _ _ => rfl⟩
